import Mathlib

/-!
Shallow embedding of the invitation/user reconciliation state machine of
`fastly/resource_fastly_user.go` (terraform-provider-fastly-user-mgt).

The resource operations (`resourceUserCreate`, `resourceUserRead`,
`resourceUserUpdate`, `resourceUserDelete`) and the helper lookups
(`findUserByLogin`, `findInvitationByEmail`, `getInvitation`,
`listInvitations`, `createInvitation`, `deleteInvitation`) are translated
directly from the Go source.  The remote account API (Fastly's server side,
which is not part of this repository) is modelled as an explicit state
(`Remote`) plus per-call fault flags (`Faults`) that let a single call fail
with a transport/HTTP error, so that the error-propagation behaviour of the
client code can be stated.
-/

namespace FastlyUserMgt

/-- Mirrors `gofastly.ToValue` on `*string`: a nil pointer reads as `""`. -/
def toValue (o : Option String) : String := o.getD ""

/-- Mirrors `gofastly.User` (the fields this resource touches; pointer-typed
fields in Go become `Option`). -/
structure RemoteUser where
  userID : Option String
  login : Option String
  name : Option String
  role : Option String
deriving DecidableEq

/-- Mirrors the `Invitation` struct of `resource_fastly_user.go` (built from
the JSON:API response data: id, email, role, status code). -/
structure Invitation where
  id : String
  email : String
  role : String
  statusCode : Int
deriving DecidableEq

/-- Modelled from the spec: the remote account state behind the API (the
server side is not in this repository).  It holds the customer id of the
current user, the account's user list, the account's invitation list, and
the id the server would assign to the next created invitation. -/
structure Remote where
  customerID : Option String
  users : List RemoteUser
  invitations : List Invitation
  freshInvId : String
deriving DecidableEq

/-- Fault-injection flags: `true` means the corresponding remote call fails
with a transport/HTTP error (a non-2xx other than a recognized not-found). -/
structure Faults where
  getCurrentUser : Bool
  listUsers : Bool
  getUser : Bool
  updateUser : Bool
  deleteUser : Bool
  listInvitations : Bool
  createInvitation : Bool
  deleteInvitation : Bool
deriving DecidableEq

/-- All remote calls succeed. -/
def Faults.noFault : Faults := ⟨false, false, false, false, false, false, false, false⟩

/-- The environment a resource operation runs against. -/
structure Env where
  remote : Remote
  faults : Faults
deriving DecidableEq

/-- Result of a targeted-id remote call: success, a recognized 404
(`gofastly.HTTPError.IsNotFound`), or any other error. -/
inductive ApiResult (α : Type) where
  | ok : α → ApiResult α
  | notFound : ApiResult α
  | err : String → ApiResult α
deriving DecidableEq

/-- Mirrors `conn.GetCurrentUser` as used here: yields the customer id. -/
def getCurrentUser (env : Env) : Except String (Option String) :=
  if env.faults.getCurrentUser then .error "error getting current user"
  else .ok env.remote.customerID

/-- Mirrors `conn.ListCustomerUsers` (the account's full user list). -/
def listCustomerUsers (env : Env) (_customerID : String) : Except String (List RemoteUser) :=
  if env.faults.listUsers then .error "error listing users"
  else .ok env.remote.users

/-- Mirrors `conn.GetUser`: fetch a RemoteUser by id; a missing id is a
recognized not-found. -/
def getUser (env : Env) (id : String) : ApiResult RemoteUser :=
  if env.faults.getUser then .err "error getting user"
  else
    match env.remote.users.find? (fun u => toValue u.userID == id) with
    | some u => .ok u
    | none => .notFound

/-- Mirrors `conn.UpdateUser`: set name and role of the user with this id. -/
def updateUser (env : Env) (id name role : String) : Except String Env :=
  if env.faults.updateUser then .error "error updating user"
  else .ok { env with remote := { env.remote with
      users := env.remote.users.map (fun u =>
        if toValue u.userID == id then { u with name := some name, role := some role } else u) } }

/-- Mirrors `conn.DeleteUser`: deleting an absent id is a recognized
not-found. -/
def deleteUser (env : Env) (id : String) : ApiResult Env :=
  if env.faults.deleteUser then .err "error deleting user"
  else if (env.remote.users.find? (fun u => toValue u.userID == id)).isSome then
    .ok { env with remote := { env.remote with
        users := env.remote.users.filter (fun u => !(toValue u.userID == id)) } }
  else .notFound

/-- Mirrors `listInvitations` (GET /invitations): a non-200 response is an
error, otherwise the decoded invitation list. -/
def listInvitations (env : Env) : Except String (List Invitation) :=
  if env.faults.listInvitations then .error "failed to list invitations"
  else .ok env.remote.invitations

/-- Mirrors `findUserByLogin`: get the current user's customer id, list the
account's users, and return the first one whose login equals `login`
(`nil, nil` — here `.ok none` — when there is no match). -/
def findUserByLogin (env : Env) (login : String) : Except String (Option RemoteUser) :=
  match getCurrentUser env with
  | .error e => .error e
  | .ok customerID =>
    match listCustomerUsers env (toValue customerID) with
    | .error e => .error e
    | .ok users => .ok (users.find? (fun u => toValue u.login == login))

/-- Mirrors `findInvitationByEmail`: list all invitations and return the
first with this email, or `.ok none`. -/
def findInvitationByEmail (env : Env) (email : String) : Except String (Option Invitation) :=
  match listInvitations env with
  | .error e => .error e
  | .ok invitations => .ok (invitations.find? (fun inv => inv.email == email))

/-- Mirrors `getInvitation`: list all invitations and find the one with this
id; a missing id is the error "invitation not found". -/
def getInvitation (env : Env) (invitationID : String) : Except String Invitation :=
  match listInvitations env with
  | .error e => .error e
  | .ok invitations =>
    match invitations.find? (fun inv => inv.id == invitationID) with
    | some inv => .ok inv
    | none => .error ("invitation not found: " ++ invitationID)

/-- Mirrors `createInvitation` (POST /invitations).  The request carries the
email, the role and the customer relationship; the server side (modelled
from the spec: it appends a new invitation record with the requested email
and role under a fresh id) returns the created record. -/
def createInvitation (env : Env) (email role _customerID : String) :
    Except String (Invitation × Env) :=
  if env.faults.createInvitation then .error "failed to create invitation"
  else
    let inv : Invitation := ⟨env.remote.freshInvId, email, role, 0⟩
    .ok (inv, { env with remote := { env.remote with
        invitations := env.remote.invitations ++ [inv] } })

/-- Mirrors `deleteInvitation` (DELETE /invitations/:id).  A 200, 204 or 404
response is success (so deleting an already-absent invitation succeeds);
any other response is an error. -/
def deleteInvitation (env : Env) (invitationID : String) : Except String Env :=
  if env.faults.deleteInvitation then .error "failed to delete invitation"
  else .ok { env with remote := { env.remote with
      invitations := env.remote.invitations.filter (fun inv => !(inv.id == invitationID)) } }

/-- The host's property bag for this resource: the opaque resource id
(`d.Id()`) plus the schema fields `login`, `name`, `role`,
`invitation_id`, `user_id`. -/
structure ResourceData where
  id : String
  login : String
  name : String
  role : String
  invitation_id : String
  user_id : String
deriving DecidableEq

/-- `diag.Diagnostics`: `none` is the nil (success) result, `some e` an
error diagnostic. -/
abbrev Diag := Option String

/-- Mirrors `resourceUserRead`.  Read performs no remote mutation, so it
returns only the diagnostics and the updated property bag. -/
def resourceUserRead (env : Env) (d : ResourceData) : Diag × ResourceData :=
  let userID := d.user_id
  let invitationID := d.invitation_id
  let login := d.login
  if userID ≠ "" then
    -- invitation was accepted - read the user by id
    match getUser env userID with
    | .notFound => (none, { d with id := "" })
    | .err e => (some e, d)
    | .ok u =>
      let d := match u.login with | some l => { d with login := l } | none => d
      let d := match u.name with | some n => { d with name := n } | none => d
      let d := match u.role with | some r => { d with role := r } | none => d
      (none, d)
  else if invitationID ≠ "" then
    -- first, check if the user now exists (invitation was accepted)
    match findUserByLogin env login with
    | .error e => (some ("error checking for user: " ++ e), d)
    | .ok (some existingUser) =>
      let newUserID := toValue existingUser.userID
      let d := { d with id := newUserID, user_id := newUserID, invitation_id := "" }
      let d := match existingUser.login with | some l => { d with login := l } | none => d
      let d := match existingUser.name with | some n => { d with name := n } | none => d
      let d := match existingUser.role with | some r => { d with role := r } | none => d
      (none, d)
    | .ok none =>
      -- check if the invitation still exists; any failure here is treated
      -- as the invitation being gone and clears the resource id
      match getInvitation env invitationID with
      | .error _ => (none, { d with id := "" })
      | .ok _ => (none, d)
  else
    -- no user_id or invitation_id: might be an import by user id
    match getUser env d.id with
    | .notFound => (none, { d with id := "" })
    | .err e => (some e, d)
    | .ok u =>
      let d := { d with user_id := d.id, invitation_id := "" }
      let d := match u.login with | some l => { d with login := l } | none => d
      let d := match u.name with | some n => { d with name := n } | none => d
      let d := match u.role with | some r => { d with role := r } | none => d
      (none, d)

/-- Mirrors `resourceUserCreate`: adopt an existing RemoteUser by login, else
adopt an existing pending invitation by email, else create a new
invitation. -/
def resourceUserCreate (env : Env) (d : ResourceData) : Diag × ResourceData × Env :=
  let login := d.login
  let role := d.role
  match findUserByLogin env login with
  | .error e => (some ("error checking for existing user: " ++ e), d, env)
  | .ok (some existingUser) =>
    let d := { d with id := toValue existingUser.userID,
                      user_id := toValue existingUser.userID,
                      invitation_id := "" }
    let r := resourceUserRead env d
    (r.1, r.2, env)
  | .ok none =>
    match findInvitationByEmail env login with
    | .error e => (some ("error checking for existing invitation: " ++ e), d, env)
    | .ok (some existingInvitation) =>
      (none, { d with id := existingInvitation.id,
                      invitation_id := existingInvitation.id,
                      user_id := "" }, env)
    | .ok none =>
      match getCurrentUser env with
      | .error e => (some ("error getting current user: " ++ e), d, env)
      | .ok customerID =>
        match createInvitation env login role (toValue customerID) with
        | .error e => (some ("error creating invitation: " ++ e), d, env)
        | .ok (invitation, env) =>
          (none, { d with id := invitation.id,
                          invitation_id := invitation.id,
                          user_id := "" }, env)

/-- Mirrors `resourceUserUpdate`.  `hasChanges` stands for
`d.HasChanges("name", "role")`; `d.name` and `d.role` hold the new values. -/
def resourceUserUpdate (env : Env) (d : ResourceData) (hasChanges : Bool) :
    Diag × ResourceData × Env :=
  let userID := d.user_id
  if userID = "" then
    if hasChanges then
      (some "cannot update user while invitation is still pending; please wait for the user to accept the invitation", d, env)
    else (none, d, env)
  else
    if hasChanges then
      match updateUser env userID d.name d.role with
      | .error e => (some e, d, env)
      | .ok env' =>
        let r := resourceUserRead env' d
        (r.1, r.2, env')
    else
      let r := resourceUserRead env d
      (r.1, r.2, env)

/-- Mirrors `resourceUserDelete`: delete the user if one is tracked
(not-found is success), else delete the invitation (every failure is logged
and swallowed), else do nothing. -/
def resourceUserDelete (env : Env) (d : ResourceData) : Diag × ResourceData × Env :=
  let userID := d.user_id
  let invitationID := d.invitation_id
  if userID ≠ "" then
    match deleteUser env userID with
    | .notFound => (none, d, env)
    | .err e => (some e, d, env)
    | .ok env' => (none, d, env')
  else if invitationID ≠ "" then
    match deleteInvitation env invitationID with
    | .error _ => (none, d, env)
    | .ok env' => (none, d, env')
  else (none, d, env)

/-! ### Concrete sample data used by the witnesses -/

/-- A RemoteUser that already exists in the account. -/
def userU2 : RemoteUser := ⟨some "u-2", some "b@x.com", some "Bob", some "user"⟩

/-- A pending invitation for a login with no RemoteUser. -/
def invI1 : Invitation := ⟨"inv-1", "a@x.com", "engineer", 0⟩

/-- A pending invitation for the same login as `userU2`. -/
def invI3 : Invitation := ⟨"inv-3", "b@x.com", "user", 0⟩

/-- A pending invitation used by the invitation-lookup-failure scenarios. -/
def invI2 : Invitation := ⟨"inv-2", "c@x.com", "user", 0⟩

/-- An account with one user (`u-2`) and one pending invitation (`inv-1`). -/
def remoteA : Remote := ⟨some "cust-1", [userU2], [invI1], "inv-7"⟩

/-- `remoteA` with every remote call succeeding. -/
def envA : Env := ⟨remoteA, Faults.noFault⟩

/-- `envA` after the invitation `inv-1` has been deleted. -/
def envDelInv : Env := ⟨⟨some "cust-1", [userU2], [], "inv-7"⟩, Faults.noFault⟩

/-- `envA` after the user `u-2` has been deleted. -/
def envDelU2 : Env := ⟨⟨some "cust-1", [], [invI1], "inv-7"⟩, Faults.noFault⟩

/-- `remoteA` where deleting an invitation fails with a remote error. -/
def envC8 : Env := ⟨remoteA, { Faults.noFault with deleteInvitation := true }⟩

/-- An account where both the invitation `inv-3` and the accepted user
`u-2` exist for the same login. -/
def envB : Env := ⟨⟨some "cust-1", [userU2], [invI3], "inv-7"⟩, Faults.noFault⟩

/-- An account where listing invitations fails with a remote error while
the invitation `inv-2` still exists and no user exists for its login. -/
def envC6 : Env :=
  ⟨⟨some "cust-1", [], [invI2], "inv-9"⟩, { Faults.noFault with listInvitations := true }⟩

/-- Property bag pending on `inv-1`. -/
def dPend : ResourceData := ⟨"inv-1", "a@x.com", "Alice", "engineer", "inv-1", ""⟩

/-- Property bag pending on `inv-3` (whose login also has a RemoteUser). -/
def dPendB : ResourceData := ⟨"inv-3", "b@x.com", "Bobby", "user", "inv-3", ""⟩

/-- Property bag pending on `inv-2`. -/
def dC6 : ResourceData := ⟨"inv-2", "c@x.com", "Carol", "user", "inv-2", ""⟩

/-- Property bag tracking the accepted user `u-2`. -/
def dAct : ResourceData := ⟨"u-2", "b@x.com", "Bob", "user", "", "u-2"⟩

/-- Property bag for a fresh create (no matching user or invitation). -/
def dNew : ResourceData := ⟨"", "c@x.com", "Carol", "user", "", ""⟩

/-- Property bag for a create whose login already has a RemoteUser. -/
def dB : ResourceData := ⟨"", "b@x.com", "Bob", "user", "", ""⟩

/-- Property bag as it looks right after `terraform import u-2`. -/
def dImp : ResourceData := ⟨"u-2", "", "", "user", "", ""⟩

/-- The state invariant of the property bag: it never tracks both a live
invitation id and a live user id. -/
def StateInv (d : ResourceData) : Prop := d.invitation_id = "" ∨ d.user_id = ""

/-! ### Helper lemmas -/

theorem findUserByLogin_noFault (env : Env) (login : String)
    (h1 : env.faults.getCurrentUser = false) (h2 : env.faults.listUsers = false) :
    findUserByLogin env login =
      .ok (env.remote.users.find? (fun u => toValue u.login == login)) := by
  simp [findUserByLogin, getCurrentUser, listCustomerUsers, h1, h2]

theorem findInvitationByEmail_noFault (env : Env) (email : String)
    (h : env.faults.listInvitations = false) :
    findInvitationByEmail env email =
      .ok (env.remote.invitations.find? (fun inv => inv.email == email)) := by
  simp [findInvitationByEmail, listInvitations, h]

theorem getUser_noFault (env : Env) (id : String) (h : env.faults.getUser = false) :
    getUser env id =
      match env.remote.users.find? (fun u => toValue u.userID == id) with
      | some u => .ok u
      | none => .notFound := by
  simp [getUser, h]

/-- On a bag with no tracked invitation whose resource id equals its user id,
a fault-free read keeps the identity fields and reports no error. -/
theorem read_ids_stable (env : Env) (d : ResourceData)
    (h1 : d.invitation_id = "") (h2 : d.user_id = d.id)
    (h3 : env.faults.getUser = false) :
    (resourceUserRead env d).1 = none ∧
    (resourceUserRead env d).2.user_id = d.user_id ∧
    (resourceUserRead env d).2.invitation_id = "" := by
  simp only [resourceUserRead]
  rw [getUser_noFault env d.user_id h3, getUser_noFault env d.id h3]
  by_cases hu : d.user_id = ""
  · rw [if_neg (by simp [hu]), if_neg (by simp [h1])]
    rcases hfind : env.remote.users.find? (fun u => toValue u.userID == d.id) with _ | u
    · simp [hfind, h1]
    · simp only [hfind]
      cases hl : u.login <;> cases hn : u.name <;> cases hr : u.role <;> simp_all
  · rw [if_pos (by simp [hu])]
    rcases hfind : env.remote.users.find? (fun u => toValue u.userID == d.user_id) with _ | u
    · simp [hfind, h1]
    · simp only [hfind]
      cases hl : u.login <;> cases hn : u.name <;> cases hr : u.role <;> simp_all

/-- A read never breaks the one-identity invariant. -/
theorem read_StateInv (env : Env) (d : ResourceData) (h : StateInv d) :
    StateInv (resourceUserRead env d).2 := by
  simp only [resourceUserRead]
  repeat' split
  all_goals first
    | exact h
    | exact Or.inl rfl

/-! ### Claim theorems -/

/-- C3: after every operation (Create, Read, Update, Delete), the managed
user state never holds both a non-empty invitation id and a non-empty user
id: every operation either leaves the identity pair alone or sets one field
while clearing the other, so the invariant is preserved. -/
theorem managedUser_identity_invariant (env : Env) (d : ResourceData) (hasChanges : Bool)
    (h : StateInv d) :
    StateInv (resourceUserCreate env d).2.1 ∧
    StateInv (resourceUserRead env d).2 ∧
    StateInv (resourceUserUpdate env d hasChanges).2.1 ∧
    StateInv (resourceUserDelete env d).2.1 := by
  refine ⟨?_, read_StateInv env d h, ?_, ?_⟩
  · simp only [resourceUserCreate]
    repeat' split
    all_goals first
      | exact h
      | exact Or.inr rfl
      | exact read_StateInv env _ (Or.inl rfl)
  · simp only [resourceUserUpdate]
    repeat' split
    all_goals first
      | exact h
      | exact read_StateInv _ _ h
  · simp only [resourceUserDelete]
    repeat' split
    all_goals exact h

/-- C3 witness: the invariant is preserved on a concrete pending state. -/
theorem managedUser_identity_invariant_witness :
    StateInv dPend ∧
    (StateInv (resourceUserCreate envA dPend).2.1 ∧
     StateInv (resourceUserRead envA dPend).2 ∧
     StateInv (resourceUserUpdate envA dPend true).2.1 ∧
     StateInv (resourceUserDelete envA dPend).2.1) :=
  ⟨Or.inr rfl, managedUser_identity_invariant envA dPend true (Or.inr rfl)⟩

/-- C2: while the invitation is outstanding (`user_id` empty), an update
that changes name or role fails with the precondition error and leaves both
the property bag and the remote system untouched. -/
theorem resourceUserUpdate_pending_spec (env : Env) (d : ResourceData)
    (h : d.user_id = "") :
    resourceUserUpdate env d true =
      (some "cannot update user while invitation is still pending; please wait for the user to accept the invitation",
       d, env) := by
  simp [resourceUserUpdate, h]

/-- C2 witness: updating a concrete pending user fails without a remote
call. -/
theorem resourceUserUpdate_pending_witness :
    dPend.user_id = "" ∧ dPend.invitation_id ≠ "" ∧
    resourceUserUpdate envA dPend true =
      (some "cannot update user while invitation is still pending; please wait for the user to accept the invitation",
       dPend, envA) :=
  ⟨rfl, by decide, resourceUserUpdate_pending_spec envA dPend rfl⟩

/-- C7: deleting an active user deletes the RemoteUser; a not-found response
is success, any other remote error propagates. -/
theorem resourceUserDelete_active_spec (env : Env) (d : ResourceData)
    (h : d.user_id ≠ "") :
    (deleteUser env d.user_id = .notFound → resourceUserDelete env d = (none, d, env)) ∧
    (∀ e, deleteUser env d.user_id = .err e → resourceUserDelete env d = (some e, d, env)) ∧
    (∀ env', deleteUser env d.user_id = .ok env' →
      resourceUserDelete env d = (none, d, env')) := by
  refine ⟨fun hnf => ?_, fun e he => ?_, fun env' hok => ?_⟩ <;>
    simp_all [resourceUserDelete]

/-- C7 witness: deleting the concrete active user `u-2` succeeds and removes
it from the remote account. -/
theorem resourceUserDelete_active_witness :
    dAct.user_id ≠ "" ∧ deleteUser envA dAct.user_id = .ok envDelU2 ∧
    resourceUserDelete envA dAct = (none, dAct, envDelU2) :=
  ⟨by decide, by decide,
    (resourceUserDelete_active_spec envA dAct (by decide)).2.2 envDelU2 (by decide)⟩

/-- C8: deleting a pending user deletes the invitation; every error from the
invitation deletion is swallowed, so the delete always succeeds. -/
theorem resourceUserDelete_pending_spec (env : Env) (d : ResourceData)
    (h1 : d.user_id = "") (h2 : d.invitation_id ≠ "") :
    (resourceUserDelete env d).1 = none ∧
    (∀ e, deleteInvitation env d.invitation_id = .error e →
      resourceUserDelete env d = (none, d, env)) ∧
    (∀ env', deleteInvitation env d.invitation_id = .ok env' →
      resourceUserDelete env d = (none, d, env')) := by
  refine ⟨?_, fun e he => ?_, fun env' hok => ?_⟩
  · rcases hdi : deleteInvitation env d.invitation_id with e | env' <;>
      simp_all [resourceUserDelete]
  · simp_all [resourceUserDelete]
  · simp_all [resourceUserDelete]

/-- C8 witness: on a concrete pending state where the invitation delete
fails with a remote error, the delete still reports success. -/
theorem resourceUserDelete_pending_witness :
    dPend.user_id = "" ∧ dPend.invitation_id ≠ "" ∧
    resourceUserDelete envC8 dPend = (none, dPend, envC8) :=
  ⟨rfl, by decide,
    (resourceUserDelete_pending_spec envC8 dPend rfl (by decide)).2.1
      "failed to delete invitation" rfl⟩

/-- C5: reading an active user fetches the RemoteUser by id; a not-found
clears the state to Absent without error; on success name, role and login
are refreshed and the identity fields are unchanged. -/
theorem resourceUserRead_active_spec (env : Env) (d : ResourceData)
    (h : d.user_id ≠ "") :
    (getUser env d.user_id = .notFound → resourceUserRead env d = (none, { d with id := "" })) ∧
    (∀ u l n r, getUser env d.user_id = .ok u → u.login = some l → u.name = some n →
      u.role = some r →
      resourceUserRead env d = (none, { d with login := l, name := n, role := r })) := by
  refine ⟨fun hnf => ?_, fun u l n r hok hl hn hr => ?_⟩ <;> simp_all [resourceUserRead]

/-- C5 witness: reading the concrete active user `u-2` refreshes the
attribute fields and keeps the identity. -/
theorem resourceUserRead_active_witness :
    dAct.user_id ≠ "" ∧ getUser envA dAct.user_id = .ok userU2 ∧
    resourceUserRead envA dAct =
      (none, { dAct with login := "b@x.com", name := "Bob", role := "user" }) :=
  ⟨by decide, by decide,
    (resourceUserRead_active_spec envA dAct (by decide)).2 userU2 "b@x.com" "Bob" "user"
      (by decide) rfl rfl rfl⟩

/-- C10: a read with no user id and no invitation id treats the resource id
as a user id (the import path): a not-found clears the state to Absent
without error; on success the state becomes Active with `user_id` set to the
resource id, the invitation id cleared, and login/name/role populated from
the fetched record. -/
theorem resourceUserRead_import_spec (env : Env) (d : ResourceData)
    (h1 : d.user_id = "") (h2 : d.invitation_id = "") (h3 : d.id ≠ "") :
    (getUser env d.id = .notFound → resourceUserRead env d = (none, { d with id := "" })) ∧
    (∀ u l n r, getUser env d.id = .ok u → u.login = some l → u.name = some n →
      u.role = some r →
      resourceUserRead env d =
        (none, { d with user_id := d.id, invitation_id := "",
                        login := l, name := n, role := r })) := by
  refine ⟨fun hnf => ?_, fun u l n r hok hl hn hr => ?_⟩ <;> simp_all [resourceUserRead]

/-- C10 witness: importing the concrete user id `u-2` populates the state
from the fetched record. -/
theorem resourceUserRead_import_witness :
    dImp.user_id = "" ∧ dImp.invitation_id = "" ∧ dImp.id ≠ "" ∧
    getUser envA dImp.id = .ok userU2 ∧
    resourceUserRead envA dImp =
      (none, { dImp with user_id := "u-2", invitation_id := "",
                         login := "b@x.com", name := "Bob", role := "user" }) :=
  ⟨rfl, rfl, by decide, by decide,
    (resourceUserRead_import_spec envA dImp rfl rfl (by decide)).2 userU2
      "b@x.com" "Bob" "user" (by decide) rfl rfl rfl⟩

/-- C4: on a pending state, a read first re-checks by login; when a
RemoteUser for the login exists (whatever the invitation list holds), the
state transitions to Active(userID), the invitation id is cleared and the
attribute fields are populated from the fetched RemoteUser. -/
theorem resourceUserRead_pending_accept_spec (env : Env) (d : ResourceData)
    (u : RemoteUser) (l n r : String)
    (h1 : d.user_id = "") (h2 : d.invitation_id ≠ "")
    (hfind : findUserByLogin env d.login = .ok (some u))
    (hl : u.login = some l) (hn : u.name = some n) (hr : u.role = some r) :
    resourceUserRead env d =
      (none, { d with id := toValue u.userID, user_id := toValue u.userID,
                      invitation_id := "", login := l, name := n, role := r }) := by
  simp_all [resourceUserRead]

/-- C4 witness: while the invitation `inv-3` is still present in the remote
list, the read of the pending state transitions to `Active(u-2)`. -/
theorem resourceUserRead_pending_accept_witness :
    dPendB.user_id = "" ∧ dPendB.invitation_id ≠ "" ∧
    envB.remote.invitations = [invI3] ∧
    findUserByLogin envB dPendB.login = .ok (some userU2) ∧
    resourceUserRead envB dPendB =
      (none, { dPendB with id := "u-2", user_id := "u-2", invitation_id := "",
                           login := "b@x.com", name := "Bob", role := "user" }) :=
  ⟨rfl, by decide, rfl, rfl,
    resourceUserRead_pending_accept_spec envB dPendB userU2 "b@x.com" "Bob" "user"
      rfl (by decide) rfl rfl rfl rfl⟩

/-- C6 counterexample: pending state `inv-2`, no RemoteUser for the login,
and the invitation listing fails with a remote error (not a not-found)
while the invitation record still exists — yet the read does not abort: it
reports success and clears the resource id (state becomes Absent). -/
theorem resourceUserRead_pending_error_counterexample :
    envC6.faults.listInvitations = true ∧
    envC6.remote.invitations = [invI2] ∧
    getInvitation envC6 dC6.invitation_id = .error "failed to list invitations" ∧
    resourceUserRead envC6 dC6 = (none, { dC6 with id := "" }) :=
  ⟨rfl, rfl, rfl, by decide⟩

/-- C6 amended: on a pending state with no RemoteUser for the login, any
failure to confirm the invitation — whether the invitation disappeared or
the lookup failed with a remote error — makes the read succeed with the
state cleared to Absent; lookup errors are not propagated. -/
theorem resourceUserRead_pending_gone_spec (env : Env) (d : ResourceData) (e : String)
    (h1 : d.user_id = "") (h2 : d.invitation_id ≠ "")
    (hfind : findUserByLogin env d.login = .ok none)
    (hget : getInvitation env d.invitation_id = .error e) :
    resourceUserRead env d = (none, { d with id := "" }) := by
  simp_all [resourceUserRead]

/-- C6 amended witness: the concrete failing lookup clears the state. -/
theorem resourceUserRead_pending_gone_witness :
    dC6.user_id = "" ∧ dC6.invitation_id ≠ "" ∧
    findUserByLogin envC6 dC6.login = .ok none ∧
    getInvitation envC6 dC6.invitation_id = .error "failed to list invitations" ∧
    resourceUserRead envC6 dC6 = (none, { dC6 with id := "" }) :=
  ⟨rfl, by decide, rfl, rfl,
    resourceUserRead_pending_gone_spec envC6 dC6 "failed to list invitations"
      rfl (by decide) rfl rfl⟩

/-- Create when a RemoteUser with the login exists: success, the state
adopts that user's id with the invitation id cleared, and the remote is
untouched. -/
theorem create_user_found (env : Env) (d : ResourceData) (u : RemoteUser)
    (hf : env.faults = Faults.noFault)
    (hfind : env.remote.users.find? (fun u' => toValue u'.login == d.login) = some u) :
    (resourceUserCreate env d).1 = none ∧
    (resourceUserCreate env d).2.1.user_id = toValue u.userID ∧
    (resourceUserCreate env d).2.1.invitation_id = "" ∧
    (resourceUserCreate env d).2.2 = env := by
  have hcu : env.faults.getCurrentUser = false := by rw [hf]; rfl
  have hlu : env.faults.listUsers = false := by rw [hf]; rfl
  have hgu : env.faults.getUser = false := by rw [hf]; rfl
  have hstep : resourceUserCreate env d =
      ((resourceUserRead env
          { d with
              id := toValue u.userID,
              user_id := toValue u.userID,
              invitation_id := "" }).1,
       (resourceUserRead env
          { d with
              id := toValue u.userID,
              user_id := toValue u.userID,
              invitation_id := "" }).2, env) := by
    simp only [resourceUserCreate, findUserByLogin_noFault env d.login hcu hlu, hfind]
  obtain ⟨hd, hu', hi⟩ := read_ids_stable env
    { d with id := toValue u.userID, user_id := toValue u.userID, invitation_id := "" }
    rfl rfl hgu
  rw [hstep]
  exact ⟨hd, Eq.trans hu' rfl, hi, rfl⟩

/-- Create when no RemoteUser but a pending invitation with the email
exists: the invitation is adopted and the remote is untouched. -/
theorem create_inv_found (env : Env) (d : ResourceData) (inv : Invitation)
    (hf : env.faults = Faults.noFault)
    (hnouser : env.remote.users.find? (fun u' => toValue u'.login == d.login) = none)
    (hfind : env.remote.invitations.find? (fun i => i.email == d.login) = some inv) :
    resourceUserCreate env d =
      (none, { d with id := inv.id, invitation_id := inv.id, user_id := "" }, env) := by
  have hcu : env.faults.getCurrentUser = false := by rw [hf]; rfl
  have hlu : env.faults.listUsers = false := by rw [hf]; rfl
  have hli : env.faults.listInvitations = false := by rw [hf]; rfl
  simp only [resourceUserCreate, findUserByLogin_noFault env d.login hcu hlu, hnouser,
    findInvitationByEmail_noFault env d.login hli, hfind]

/-- Create when neither a RemoteUser nor an invitation exists: a new
invitation is issued under the fresh id and appended to the remote list. -/
theorem create_new_invitation (env : Env) (d : ResourceData)
    (hf : env.faults = Faults.noFault)
    (hnouser : env.remote.users.find? (fun u' => toValue u'.login == d.login) = none)
    (hnoinv : env.remote.invitations.find? (fun i => i.email == d.login) = none) :
    resourceUserCreate env d =
      (none,
       { d with id := env.remote.freshInvId, invitation_id := env.remote.freshInvId,
                user_id := "" },
       { env with remote := { env.remote with
           invitations := env.remote.invitations ++
             [Invitation.mk env.remote.freshInvId d.login d.role 0] } }) := by
  have hcu : env.faults.getCurrentUser = false := by rw [hf]; rfl
  have hlu : env.faults.listUsers = false := by rw [hf]; rfl
  have hli : env.faults.listInvitations = false := by rw [hf]; rfl
  have hci : env.faults.createInvitation = false := by rw [hf]; rfl
  simp only [resourceUserCreate, findUserByLogin_noFault env d.login hcu hlu, hnouser,
    findInvitationByEmail_noFault env d.login hli, hnoinv, getCurrentUser, hcu,
    Bool.false_eq_true, if_false, createInvitation, hci]

/-- C1: create first looks up a RemoteUser by login over the account's user
list — if found, the state becomes Active of that user's id and no
invitation is created; otherwise a pending invitation with the email is
adopted without creating a duplicate; only if neither exists a new
invitation is issued and the state becomes Pending of the new id. -/
theorem resourceUserCreate_spec (env : Env) (d : ResourceData)
    (hf : env.faults = Faults.noFault) :
    (∀ u, env.remote.users.find? (fun u' => toValue u'.login == d.login) = some u →
      (resourceUserCreate env d).1 = none ∧
      (resourceUserCreate env d).2.1.user_id = toValue u.userID ∧
      (resourceUserCreate env d).2.1.invitation_id = "" ∧
      (resourceUserCreate env d).2.2 = env) ∧
    (env.remote.users.find? (fun u' => toValue u'.login == d.login) = none →
      (∀ inv, env.remote.invitations.find? (fun i => i.email == d.login) = some inv →
        resourceUserCreate env d =
          (none, { d with id := inv.id, invitation_id := inv.id, user_id := "" }, env)) ∧
      (env.remote.invitations.find? (fun i => i.email == d.login) = none →
        resourceUserCreate env d =
          (none,
           { d with id := env.remote.freshInvId,
                    invitation_id := env.remote.freshInvId, user_id := "" },
           { env with remote := { env.remote with
               invitations := env.remote.invitations ++
                 [Invitation.mk env.remote.freshInvId d.login d.role 0] } }))) :=
  ⟨fun u hu => create_user_found env d u hf hu,
   fun hnou => ⟨fun inv hinv => create_inv_found env d inv hf hnou hinv,
                fun hnoinv => create_new_invitation env d hf hnou hnoinv⟩⟩

/-- C1 witness: creating for the login of the existing user `u-2` adopts it
immediately, with no invitation created. -/
theorem resourceUserCreate_spec_witness :
    envA.faults = Faults.noFault ∧
    envA.remote.users.find? (fun u' => toValue u'.login == dB.login) = some userU2 ∧
    ((resourceUserCreate envA dB).1 = none ∧
     (resourceUserCreate envA dB).2.1.user_id = toValue userU2.userID ∧
     (resourceUserCreate envA dB).2.1.invitation_id = "" ∧
     (resourceUserCreate envA dB).2.2 = envA) :=
  ⟨rfl, by decide, (resourceUserCreate_spec envA dB rfl).1 userU2 (by decide)⟩

/-- C9: creating the same login twice in sequence (no intervening delete,
remote otherwise fixed) yields the same identity both times and the second
create changes nothing on the remote. -/
theorem resourceUserCreate_idempotent (env : Env) (d d2 : ResourceData)
    (hf : env.faults = Faults.noFault) (hlogin : d2.login = d.login) :
    (resourceUserCreate (resourceUserCreate env d).2.2 d2).2.1.user_id =
      (resourceUserCreate env d).2.1.user_id ∧
    (resourceUserCreate (resourceUserCreate env d).2.2 d2).2.1.invitation_id =
      (resourceUserCreate env d).2.1.invitation_id ∧
    (resourceUserCreate (resourceUserCreate env d).2.2 d2).2.2 =
      (resourceUserCreate env d).2.2 := by
  rcases hfu : env.remote.users.find? (fun u' => toValue u'.login == d.login) with _ | u
  · rcases hfi : env.remote.invitations.find? (fun i => i.email == d.login) with _ | inv
    · have h1 := create_new_invitation env d hf hfu hfi
      have hfu2 : ({ env with remote := { env.remote with
            invitations := env.remote.invitations ++
              [Invitation.mk env.remote.freshInvId d.login d.role 0] } } : Env).remote.users.find?
            (fun u' => toValue u'.login == d2.login) = none := by
        simpa [hlogin] using hfu
      have hfi2 : ({ env with remote := { env.remote with
            invitations := env.remote.invitations ++
              [Invitation.mk env.remote.freshInvId d.login d.role 0] } } : Env).remote.invitations.find?
            (fun i => i.email == d2.login) =
            some (Invitation.mk env.remote.freshInvId d.login d.role 0) := by
        show (env.remote.invitations ++
          [Invitation.mk env.remote.freshInvId d.login d.role 0]).find?
            (fun i => i.email == d2.login) = _
        rw [hlogin, List.find?_append, hfi]
        simp
      have h2 := create_inv_found
        { env with remote := { env.remote with
            invitations := env.remote.invitations ++
              [Invitation.mk env.remote.freshInvId d.login d.role 0] } }
        d2 (Invitation.mk env.remote.freshInvId d.login d.role 0) hf hfu2 hfi2
      simp [h1, h2]
    · have h1 := create_inv_found env d inv hf hfu hfi
      have hfu2 : env.remote.users.find? (fun u' => toValue u'.login == d2.login) = none := by
        rw [hlogin]; exact hfu
      have hfi2 : env.remote.invitations.find? (fun i => i.email == d2.login) = some inv := by
        rw [hlogin]; exact hfi
      have h2 := create_inv_found env d2 inv hf hfu2 hfi2
      simp [h1, h2]
  · have h1 := create_user_found env d u hf hfu
    have hfu2 : env.remote.users.find? (fun u' => toValue u'.login == d2.login) = some u := by
      rw [hlogin]; exact hfu
    have h2 := create_user_found env d2 u hf hfu2
    refine ⟨?_, ?_, ?_⟩
    · rw [h1.2.2.2, h2.2.1, h1.2.1]
    · rw [h1.2.2.2, h2.2.2.1, h1.2.2.1]
    · rw [h1.2.2.2, h2.2.2.2]

/-- C9 witness: two concrete creates for a fresh login both yield
`Pending(inv-7)` and the second one changes nothing on the remote. -/
theorem resourceUserCreate_idempotent_witness :
    envA.faults = Faults.noFault ∧ dNew.login = dNew.login ∧
    ((resourceUserCreate (resourceUserCreate envA dNew).2.2 dNew).2.1.user_id =
       (resourceUserCreate envA dNew).2.1.user_id ∧
     (resourceUserCreate (resourceUserCreate envA dNew).2.2 dNew).2.1.invitation_id =
       (resourceUserCreate envA dNew).2.1.invitation_id ∧
     (resourceUserCreate (resourceUserCreate envA dNew).2.2 dNew).2.2 =
       (resourceUserCreate envA dNew).2.2) :=
  ⟨rfl, rfl, resourceUserCreate_idempotent envA dNew dNew rfl rfl⟩

end FastlyUserMgt
